import Mathlib

/-!
Shallow embedding of the `embla` repository fragment:
`src/platform/native/rendering.rs` (an immediate-mode OpenGL wrapper) and
`lib/js/src/window.rs` (a callback-registration input shim).

The GL driver is external: every raw `gl::*` invocation is recorded as a
`GLCall` event in a trace, and driver-supplied answers (shader compile
status, info logs, uniform/attribute locations, generated object names)
are supplied by oracle parameters.  Rust `f32` values are only stored and
passed through by this code, never computed with, so they are represented
by `Rat`.  Machine-integer casts that occur in the source (`as GLuint`,
`as GLint` on an unsigned value) are made explicit with `% 2 ^ 32`.
-/

/-! ## OpenGL constants (values of the `gl` crate bindings) -/

def GL_TEXTURE_2D : Nat := 0x0DE1
def GL_TEXTURE_MIN_FILTER : Nat := 0x2801
def GL_TEXTURE_MAG_FILTER : Nat := 0x2800
def GL_LINEAR : Nat := 0x2601
def GL_NEAREST : Nat := 0x2600
def GL_RGBA : Nat := 0x1908
def GL_UNSIGNED_BYTE : Nat := 0x1401
def GL_SRC_ALPHA : Nat := 0x0302
def GL_ONE_MINUS_SRC_ALPHA : Nat := 0x0303
def GL_BLEND : Nat := 0x0BE2
def GL_ARRAY_BUFFER : Nat := 0x8892
def GL_STATIC_DRAW : Nat := 0x88E4
def GL_TEXTURE0 : Nat := 0x84C0
def GL_FLOAT : Nat := 0x1406
def GL_UNSIGNED_INT : Nat := 0x1405
def GL_TRIANGLES : Nat := 0x0004
def GL_COLOR_BUFFER_BIT : Nat := 0x4000
def GL_DEPTH_BUFFER_BIT : Nat := 0x0100
def GL_STENCIL_BUFFER_BIT : Nat := 0x0400
def GL_VERTEX_SHADER : Nat := 0x8B31
def GL_FRAGMENT_SHADER : Nat := 0x8B30

/-- Rust `expr as GLuint` on an `i32`: two's-complement wrap into `[0, 2^32)`. -/
def i32_as_u32 (i : Int) : Nat := (i % (2 ^ 32 : Nat)).toNat

/-- Rust `expr as GLint` on a `u32`: reinterpret the value mod `2^32` as a
signed 32-bit integer. -/
def u32_as_i32 (n : Nat) : Int :=
  if n % 2 ^ 32 < 2 ^ 31 then (n % 2 ^ 32 : Nat) else (n % 2 ^ 32 : Nat) - 2 ^ 32

/-! ## GL call trace -/

/-- One raw `gl::*` invocation made by the wrapper, with the arguments the
source passes (pointer arguments carry no modelled information and are
dropped; the byte count handed to `BufferData` is kept). -/
inductive GLCall where
  | genTexture (glRef : Nat)
  | bindTexture (target texture : Nat)
  | texParameteri (target pname : Nat) (param : Nat)
  | texImage2D (target : Nat) (level : Nat) (internalformat : Nat)
      (width height : Nat) (border : Nat) (format typ : Nat)
  | texSubImage2D (target : Nat) (level : Nat) (xoffset yoffset : Nat)
      (width height : Nat) (format typ : Nat)
  | blendFunc (sfactor dfactor : Nat)
  | enableCap (cap : Nat)
  | bindVertexArray (vao : Nat)
  | bindBuffer (target buffer : Nat)
  | bufferData (target : Nat) (size : Nat) (usage : Nat)
  | useProgram (programRef : Nat)
  | getUniformLocation (programRef : Nat) (name : String)
  | uniform2f (location : Int) (x y : Rat)
  | activeTexture (unit : Nat)
  | uniform1i (location : Int) (value : Int)
  | getAttribLocation (programRef : Nat) (name : String)
  | enableVertexAttribArray (index : Nat)
  | vertexAttribPointer (index : Nat) (size : Nat) (typ : Nat)
      (normalized : Bool) (stride : Nat) (offset : Nat)
  | drawArrays (mode : Nat) (first count : Nat)
  | clearColor (r g b a : Rat)
  | glClear (mask : Nat)
  deriving Repr, DecidableEq

/-! ## Textures, uniforms, programs (rendering.rs data model) -/

/-- Source `Texture`: wraps one GPU texture object name. -/
structure Texture where
  gl_ref : Nat
  deriving Repr, DecidableEq

/-- Source `Uniform`: a tagged value, either a 2D float vector or a texture
reference. -/
inductive Uniform where
  | Vec2 (v : Rat × Rat)
  | Texture (t : Texture)
  deriving Repr, DecidableEq

/-- Source `Program`: one linked GPU program object plus the ordered list of
`(name, Uniform)` pairs accumulated by `set_uniform`. -/
structure Program where
  uniforms : List (String × Uniform)
  gl_ref : Nat
  deriving Repr, DecidableEq

/-- Source `Program::set_uniform(&mut self, name, uniform)`: pushes the pair onto
the end of `self.uniforms`.  The Rust body contains no `gl::*` call, so the
emitted GL trace is empty. -/
def Program.set_uniform (p : Program) (name : String) (uniform : Uniform) :
    Program × List GLCall :=
  ({ p with uniforms := p.uniforms ++ [(name, uniform)] }, [])

/-- Source `TextureFiltering` (from the engine-level `rendering` module, matched on
in `create_texture`): `Linear` or `Nearest`. -/
inductive TextureFiltering where
  | Linear
  | Nearest
  deriving Repr, DecidableEq

/-- Source `Texture::new(size, filtering)`: generates a texture object (the driver
hands back the name `genRef`), binds it, sets min/mag filtering to the
given mode or `gl::LINEAR` when `None`, and allocates uninitialized RGBA
storage of the requested size. -/
def Texture.new (genRef : Nat) (size : Nat × Nat) (filtering : Option Nat) :
    Texture × List GLCall :=
  ({ gl_ref := genRef },
   [GLCall.genTexture genRef,
    GLCall.bindTexture GL_TEXTURE_2D genRef,
    GLCall.texParameteri GL_TEXTURE_2D GL_TEXTURE_MIN_FILTER
      (filtering.getD GL_LINEAR),
    GLCall.texParameteri GL_TEXTURE_2D GL_TEXTURE_MAG_FILTER
      (filtering.getD GL_LINEAR),
    GLCall.texImage2D GL_TEXTURE_2D 0 GL_RGBA size.1 size.2 0 GL_RGBA
      GL_UNSIGNED_BYTE])

/-- Source `create_texture(size, filtering)`: maps the engine filtering enum onto
the GL constant and calls `Texture::new`; the whole path is infallible and
the result is wrapped in `Ok`. -/
def create_texture (genRef : Nat) (size : Nat × Nat)
    (filtering : Option TextureFiltering) : Except String Texture × List GLCall :=
  let filtering := filtering.map fun f =>
    match f with
    | TextureFiltering.Linear => GL_LINEAR
    | TextureFiltering.Nearest => GL_NEAREST
  let (t, calls) := Texture.new genRef size filtering
  (Except.ok t, calls)

/-- Source `clear(color)`: sets the clear color (defaulting to opaque black) and
clears with mask `gl::COLOR_BUFFER_BIT`. -/
def clear (color : Option (Rat × Rat × Rat × Rat)) : List GLCall :=
  match color.getD (0, 0, 0, 1) with
  | (r, g, b, a) => [GLCall.clearColor r g b a, GLCall.glClear GL_COLOR_BUFFER_BIT]

/-! ## Shader compilation and program linking

The driver's answers are an oracle: compile/link status, info logs, and the
object names handed back by `CreateShader` / `CreateProgram`. -/

/-- A shader-stage event of `create_program`: which stages were actually
compiled (`gl::CompileShader` reached) and whether linking was reached. -/
inductive StageEvent where
  | compiled (shaderType : Nat) (src : String)
  | linked (vsRef fsRef : Nat)
  deriving Repr, DecidableEq

/-- Oracle for the driver state consulted by shader compilation and
program linking. -/
structure GLDriver where
  compileStatus : Nat → String → Bool
  shaderInfoLog : Nat → String → String
  shaderRef : Nat → String → Nat
  linkStatus : Nat → Nat → Bool
  programInfoLog : Nat → Nat → String
  programRef : Nat → Nat → Nat

/-- Source `compile_shader(src, t)`: creates a shader object, hands the source to
the driver and compiles it; on `COMPILE_STATUS != TRUE` returns the error
`format_err!("Error compiling shader: {}", log)`.  The trace records that
this stage's source was compiled. -/
def compile_shader (d : GLDriver) (src : String) (t : Nat) :
    Except String Nat × List StageEvent :=
  let shader := d.shaderRef t src
  if d.compileStatus t src then
    (Except.ok shader, [StageEvent.compiled t src])
  else
    (Except.error ("Error compiling shader: " ++ d.shaderInfoLog t src),
     [StageEvent.compiled t src])

/-- Source `GLVertexShader::new(src)`: `compile_shader(src, gl::VERTEX_SHADER)`. -/
def GLVertexShader.new (d : GLDriver) (src : String) :
    Except String Nat × List StageEvent :=
  compile_shader d src GL_VERTEX_SHADER

/-- Source `GLFragmentShader::new(src)`: `compile_shader(src, gl::FRAGMENT_SHADER)`. -/
def GLFragmentShader.new (d : GLDriver) (src : String) :
    Except String Nat × List StageEvent :=
  compile_shader d src GL_FRAGMENT_SHADER

/-- Source `link_program(vs, fs)`: creates a program object, attaches both shaders
and links; on `LINK_STATUS != TRUE` returns the error
`format_err!("Error linking program: {}", log)`. -/
def link_program (d : GLDriver) (vs fs : Nat) :
    Except String Nat × List StageEvent :=
  let program := d.programRef vs fs
  if d.linkStatus vs fs then
    (Except.ok program, [StageEvent.linked vs fs])
  else
    (Except.error ("Error linking program: " ++ d.programInfoLog vs fs),
     [StageEvent.linked vs fs])

/-- Source `Program::new(vertex_shader, frag_shader)`: links the two stages and on
success returns a `Program` with `uniforms: Vec::new()`. -/
def Program.new (d : GLDriver) (vsRef fsRef : Nat) :
    Except String Program × List StageEvent :=
  match link_program d vsRef fsRef with
  | (Except.ok glRef, ev) => (Except.ok { uniforms := [], gl_ref := glRef }, ev)
  | (Except.error e, ev) => (Except.error e, ev)

/-- Source `create_program(vs, fs)`: compiles the vertex stage (`?` propagates a
failure immediately, so the fragment stage is not reached), then the
fragment stage, then links. -/
def create_program (d : GLDriver) (vs fs : String) :
    Except String Program × List StageEvent :=
  match GLVertexShader.new d vs with
  | (Except.error e, ev) => (Except.error e, ev)
  | (Except.ok vsRef, ev1) =>
    match GLFragmentShader.new d fs with
    | (Except.error e, ev2) => (Except.error e, ev1 ++ ev2)
    | (Except.ok fsRef, ev2) =>
      match Program.new d vsRef fsRef with
      | (Except.ok p, ev3) => (Except.ok p, ev1 ++ ev2 ++ ev3)
      | (Except.error e, ev3) => (Except.error e, ev1 ++ ev2 ++ ev3)

/-! ## Vertex types and draw submission -/

/-- Source `VertexAttributeType` (from the engine-level `rendering` module): the
component type of a vertex attribute, float or unsigned. -/
inductive VertexAttributeType where
  | Float
  | Unsigned
  deriving Repr, DecidableEq

/-- Modelled from the spec: `VertexAttributeType::size()` lives in the
engine-level `rendering` module, which is outside this excerpt.  The spec
describes the component types as GL float / unsigned-integer fixed-count
fields, both 4-byte components (`f32` / `u32`). -/
def VertexAttributeType.size : VertexAttributeType → Nat
  | VertexAttributeType.Float => 4
  | VertexAttributeType.Unsigned => 4

/-- The GL component-type constant `render_vertices` selects for an
attribute type. -/
def VertexAttributeType.glType : VertexAttributeType → Nat
  | VertexAttributeType.Float => GL_FLOAT
  | VertexAttributeType.Unsigned => GL_UNSIGNED_INT

/-- The `Vertex` trait's per-type data: the declared byte stride and the
ordered attribute declarations `(name, component count, component type)`. -/
structure VertexSpec where
  stride : Nat
  attributes : List (String × Nat × VertexAttributeType)

/-- The uniform-application loop of `render_vertices`: walks the program's
accumulated uniforms in order, resolving each location by name; a `Vec2` is
pushed with `Uniform2f`; a `Texture` activates unit
`gl::TEXTURE0 + texture_index`, binds the texture, writes `texture_index`
as the uniform's integer value and increments `texture_index`. -/
def applyUniforms (progRef : Nat) (loc : String → Int) :
    List (String × Uniform) → Nat → List GLCall
  | [], _ => []
  | (name, u) :: rest, texture_index =>
    match u with
    | Uniform.Vec2 v =>
      GLCall.getUniformLocation progRef name ::
      GLCall.uniform2f (loc name) v.1 v.2 ::
      applyUniforms progRef loc rest texture_index
    | Uniform.Texture t =>
      GLCall.getUniformLocation progRef name ::
      GLCall.activeTexture ((GL_TEXTURE0 + texture_index) % 2 ^ 32) ::
      GLCall.bindTexture GL_TEXTURE_2D t.gl_ref ::
      GLCall.uniform1i (loc name) (u32_as_i32 texture_index) ::
      applyUniforms progRef loc rest (texture_index + 1)

/-- The vertex-format loop of `render_vertices`: walks `V::attributes()` in
order with a running byte offset `step` starting at 0; each attribute is
enabled and described with `V::stride()` and the current `step`, after
which `step` advances by `attr_count * attr_type.size()`. -/
def defineVertexFormat (progRef : Nat) (loc : String → Int) (stride : Nat) :
    List (String × Nat × VertexAttributeType) → Nat → List GLCall
  | [], _ => []
  | (attr_name, attr_count, attr_type) :: rest, step =>
    GLCall.getAttribLocation progRef attr_name ::
    GLCall.enableVertexAttribArray (i32_as_u32 (loc attr_name)) ::
    GLCall.vertexAttribPointer (i32_as_u32 (loc attr_name)) attr_count
      attr_type.glType false stride step ::
    defineVertexFormat progRef loc stride rest (step + attr_count * attr_type.size)

/-- Source `render_vertices(vertex_buffer, program, vertices)`: enables alpha
blending, binds the VAO/VBO and uploads `vertices.len() * V::stride()`
bytes, activates the program, applies the accumulated uniforms starting at
texture unit 0, defines the vertex format, and draws
`vertices.len()` vertices as triangles.  `program` is taken by shared
reference (`&Program`, no interior mutability), so the program value seen
by the caller after the call is returned unchanged; the call itself always
returns `Ok(())`. -/
def render_vertices {α : Type} (V : VertexSpec)
    (uniformLoc attribLoc : Nat → String → Int)
    (vertex_buffer : Nat × Nat) (program : Program) (vertices : List α) :
    Program × Except String Unit × List GLCall :=
  (program, Except.ok (),
   GLCall.blendFunc GL_SRC_ALPHA GL_ONE_MINUS_SRC_ALPHA ::
   GLCall.enableCap GL_BLEND ::
   GLCall.bindVertexArray vertex_buffer.1 ::
   GLCall.bindBuffer GL_ARRAY_BUFFER vertex_buffer.2 ::
   GLCall.bufferData GL_ARRAY_BUFFER (vertices.length * V.stride) GL_STATIC_DRAW ::
   GLCall.useProgram program.gl_ref ::
   (applyUniforms program.gl_ref (uniformLoc program.gl_ref) program.uniforms 0 ++
    defineVertexFormat program.gl_ref (attribLoc program.gl_ref) V.stride
      V.attributes 0 ++
    [GLCall.drawArrays GL_TRIANGLES 0 vertices.length]))

/-! ## Input handler (lib/js/src/window.rs)

The five callback slots hold Rust `FnMut` closures.  A closure with mutable
captured state is embedded as a state-transformer over an abstract state
type `σ`: invoking it maps the pre-state and the event payload to the
post-state.  Event payloads keep the source's integer types (`i32` mouse
coordinates and keys, `i8` mouse buttons) as `Int`. -/

/-- Source `InputHandler`: five optional callback slots. -/
structure InputHandler (σ : Type) where
  mouse_move : Option (σ → Int → Int → σ)
  mouse_down : Option (σ → Int → Int → Int → σ)
  mouse_up : Option (σ → Int → Int → Int → σ)
  key_down : Option (σ → Int → σ)
  key_up : Option (σ → Int → σ)

/-- Source `InputHandler::new()`: every slot starts `None`. -/
def InputHandler.new {σ : Type} : InputHandler σ :=
  { mouse_move := none, mouse_down := none, mouse_up := none,
    key_down := none, key_up := none }

/-- Source `InputHandler::set_mouse_move(f)`: stores the closure in its slot. -/
def InputHandler.set_mouse_move {σ : Type} (h : InputHandler σ)
    (f : σ → Int → Int → σ) : InputHandler σ :=
  { h with mouse_move := some f }

/-- Source `InputHandler::set_mouse_down(f)`: stores the closure in its slot. -/
def InputHandler.set_mouse_down {σ : Type} (h : InputHandler σ)
    (f : σ → Int → Int → Int → σ) : InputHandler σ :=
  { h with mouse_down := some f }

/-- Source `InputHandler::set_mouse_up(f)`: stores the closure in its slot. -/
def InputHandler.set_mouse_up {σ : Type} (h : InputHandler σ)
    (f : σ → Int → Int → Int → σ) : InputHandler σ :=
  { h with mouse_up := some f }

/-- Source `InputHandler::set_key_down(f)`: stores the closure in its slot. -/
def InputHandler.set_key_down {σ : Type} (h : InputHandler σ)
    (f : σ → Int → σ) : InputHandler σ :=
  { h with key_down := some f }

/-- Source `InputHandler::set_key_up(f)`: stores the closure in its slot. -/
def InputHandler.set_key_up {σ : Type} (h : InputHandler σ)
    (f : σ → Int → σ) : InputHandler σ :=
  { h with key_up := some f }

/-- Host delivery of a mouse-move event: `InputHandler::mouse_move(x, y)`
invokes the registered closure once, or does nothing. -/
def mouse_move {σ : Type} (h : InputHandler σ) (s : σ) (x y : Int) : σ :=
  match h.mouse_move with
  | some f => f s x y
  | none => s

/-- Host delivery of a mouse-down event: `InputHandler::mouse_down(button, x, y)`. -/
def mouse_down {σ : Type} (h : InputHandler σ) (s : σ) (button x y : Int) : σ :=
  match h.mouse_down with
  | some f => f s button x y
  | none => s

/-- Host delivery of a mouse-up event: `InputHandler::mouse_up(button, x, y)`. -/
def mouse_up {σ : Type} (h : InputHandler σ) (s : σ) (button x y : Int) : σ :=
  match h.mouse_up with
  | some f => f s button x y
  | none => s

/-- Host delivery of a key-down event: `InputHandler::key_down(key)`. -/
def key_down {σ : Type} (h : InputHandler σ) (s : σ) (key : Int) : σ :=
  match h.key_down with
  | some f => f s key
  | none => s

/-- Host delivery of a key-up event: `InputHandler::key_up(key)`. -/
def key_up {σ : Type} (h : InputHandler σ) (s : σ) (key : Int) : σ :=
  match h.key_up with
  | some f => f s key
  | none => s

/-! ## Spec-side descriptions used to state the claims -/

/-- Declared byte size of one attribute declaration:
component count times component size. -/
def attrByteSize (a : String × Nat × VertexAttributeType) : Nat :=
  a.2.1 * a.2.2.size

/-- The offset the spec prescribes for attribute `i`: the cumulative sum of
the byte sizes of all preceding attributes. -/
def specAttrOffset (attrs : List (String × Nat × VertexAttributeType))
    (i : Nat) : Nat :=
  ((attrs.take i).map attrByteSize).sum

/-- The `(stride, offset)` arguments of one `VertexAttribPointer` call,
`none` for any other call. -/
def vapParam : GLCall → Option (Nat × Nat)
  | GLCall.vertexAttribPointer _ _ _ _ stride offset => some (stride, offset)
  | _ => none

/-- The `(stride, offset)` pairs of the `VertexAttribPointer` calls of a
trace, in order. -/
def vapStrideOffsets (calls : List GLCall) : List (Nat × Nat) :=
  calls.filterMap vapParam

/-- Whether a uniform is a texture uniform. -/
def isTextureUniform : Uniform → Bool
  | Uniform.Texture _ => true
  | Uniform.Vec2 _ => false

/-- Number of texture uniforms strictly before position `i` of the uniform
list. -/
def textureCountBefore (us : List (String × Uniform)) (i : Nat) : Nat :=
  (us.take i).countP fun p => isTextureUniform p.2

/-- The calls the spec prescribes for applying one uniform, given the
texture unit it should occupy if it is a texture: a 2D vector is pushed
directly (no texture unit), a texture is bound to `TEXTURE0 + unit` and
`unit` is written as the uniform's integer value. -/
def uniformApplicationCalls (progRef : Nat) (loc : String → Int)
    (name : String) (u : Uniform) (unit : Nat) : List GLCall :=
  match u with
  | Uniform.Vec2 v =>
    [GLCall.getUniformLocation progRef name,
     GLCall.uniform2f (loc name) v.1 v.2]
  | Uniform.Texture t =>
    [GLCall.getUniformLocation progRef name,
     GLCall.activeTexture ((GL_TEXTURE0 + unit) % 2 ^ 32),
     GLCall.bindTexture GL_TEXTURE_2D t.gl_ref,
     GLCall.uniform1i (loc name) (u32_as_i32 unit)]

/-- Whether a call belongs to the uniform-application family (location
lookup, direct push, texture activation/binding, integer write). -/
def isUniformCall : GLCall → Bool
  | GLCall.getUniformLocation _ _ => true
  | GLCall.uniform2f _ _ _ => true
  | GLCall.activeTexture _ => true
  | GLCall.bindTexture _ _ => true
  | GLCall.uniform1i _ _ => true
  | _ => false

/-- The uniform-application calls of a trace, in order. -/
def uniformCalls (calls : List GLCall) : List GLCall :=
  calls.filter isUniformCall

/-! ## Helper lemmas -/

theorem textureCountBefore_zero (us : List (String × Uniform)) :
    textureCountBefore us 0 = 0 := by
  simp [textureCountBefore]

theorem textureCountBefore_cons_succ (p : String × Uniform)
    (us : List (String × Uniform)) (i : Nat) :
    textureCountBefore (p :: us) (i + 1) =
      textureCountBefore us i + (if isTextureUniform p.2 then 1 else 0) := by
  simp [textureCountBefore, List.take_succ_cons, List.countP_cons]

theorem specAttrOffset_zero (attrs : List (String × Nat × VertexAttributeType)) :
    specAttrOffset attrs 0 = 0 := by
  simp [specAttrOffset]

theorem specAttrOffset_cons_succ (a : String × Nat × VertexAttributeType)
    (attrs : List (String × Nat × VertexAttributeType)) (i : Nat) :
    specAttrOffset (a :: attrs) (i + 1) = attrByteSize a + specAttrOffset attrs i := by
  simp [specAttrOffset, List.take_succ_cons]

theorem applyUniforms_cons (prog : Nat) (loc : String → Int)
    (p : String × Uniform) (rest : List (String × Uniform)) (k : Nat) :
    applyUniforms prog loc (p :: rest) k =
      uniformApplicationCalls prog loc p.1 p.2 k ++
        applyUniforms prog loc rest (k + if isTextureUniform p.2 then 1 else 0) := by
  obtain ⟨name, u⟩ := p
  cases u with
  | Vec2 v => simp [applyUniforms, uniformApplicationCalls, isTextureUniform]
  | Texture t => simp [applyUniforms, uniformApplicationCalls, isTextureUniform]

/-- The uniform-application loop, described as the claim does: the calls
for the uniforms in list order, concatenated, where the texture unit used
by position `i` is the accumulator plus the number of texture uniforms
before `i`. -/
theorem applyUniforms_spec (prog : Nat) (loc : String → Int)
    (us : List (String × Uniform)) (k : Nat) :
    applyUniforms prog loc us k =
      (((List.range us.length).zip us).map fun q =>
        uniformApplicationCalls prog loc q.2.1 q.2.2
          (k + textureCountBefore us q.1)).flatten := by
  induction us generalizing k with
  | nil => simp [applyUniforms]
  | cons p rest ih =>
    rw [applyUniforms_cons, ih, List.length_cons, List.range_succ_eq_map,
      List.zip_cons_cons, List.zip_map_left, List.map_cons, List.map_map,
      List.flatten_cons]
    congr 1
    refine congrArg List.flatten (List.map_congr_left fun q hq => ?_)
    simp only [Function.comp, Prod.map, id, textureCountBefore_cons_succ]
    congr 1
    ring

/-- The vertex-format loop, described as the claim does: one
`VertexAttribPointer` per declared attribute, in order, using the declared
stride throughout and the cumulative byte offset of the preceding
attributes (shifted by the loop's entry offset `step`). -/
theorem defineVertexFormat_strideOffsets (prog : Nat) (loc : String → Int)
    (stride : Nat) (attrs : List (String × Nat × VertexAttributeType))
    (step : Nat) :
    vapStrideOffsets (defineVertexFormat prog loc stride attrs step) =
      (List.range attrs.length).map fun i => (stride, step + specAttrOffset attrs i) := by
  induction attrs generalizing step with
  | nil => simp [defineVertexFormat, vapStrideOffsets]
  | cons a rest ih =>
    obtain ⟨n, c, t⟩ := a
    simp only [defineVertexFormat, vapStrideOffsets, List.filterMap_cons,
      vapParam] at ih ⊢
    rw [ih, List.length_cons, List.range_succ_eq_map, List.map_cons,
      List.map_map]
    congr 1
    refine List.map_congr_left fun i hi => ?_
    simp only [Function.comp, specAttrOffset_cons_succ]
    congr 1
    simp only [attrByteSize]
    ring

theorem vapStrideOffsets_applyUniforms (prog : Nat) (loc : String → Int)
    (us : List (String × Uniform)) (k : Nat) :
    vapStrideOffsets (applyUniforms prog loc us k) = [] := by
  induction us generalizing k with
  | nil => simp [applyUniforms, vapStrideOffsets]
  | cons p rest ih =>
    obtain ⟨name, u⟩ := p
    cases u with
    | Vec2 v =>
      simp only [applyUniforms, vapStrideOffsets, List.filterMap_cons, vapParam]
      exact ih k
    | Texture t =>
      simp only [applyUniforms, vapStrideOffsets, List.filterMap_cons, vapParam]
      exact ih (k + 1)

theorem filter_applyUniforms (prog : Nat) (loc : String → Int)
    (us : List (String × Uniform)) (k : Nat) :
    (applyUniforms prog loc us k).filter isUniformCall =
      applyUniforms prog loc us k := by
  induction us generalizing k with
  | nil => simp [applyUniforms]
  | cons p rest ih =>
    obtain ⟨name, u⟩ := p
    cases u with
    | Vec2 v =>
      simp only [applyUniforms, List.filter_cons, isUniformCall]
      simp [ih k]
    | Texture t =>
      simp only [applyUniforms, List.filter_cons, isUniformCall]
      simp [ih (k + 1)]

theorem filter_defineVertexFormat (prog : Nat) (loc : String → Int)
    (stride : Nat) (attrs : List (String × Nat × VertexAttributeType))
    (step : Nat) :
    (defineVertexFormat prog loc stride attrs step).filter isUniformCall = [] := by
  induction attrs generalizing step with
  | nil => simp [defineVertexFormat]
  | cons a rest ih =>
    obtain ⟨n, c, t⟩ := a
    simp only [defineVertexFormat, List.filter_cons, isUniformCall]
    simp [ih]

/-! ## Claims -/

/-- C1: for every vertex type whose declared attributes have component
counts `c_i` and component sizes `s_i`, `render_vertices` defines each
attribute's byte offset as the cumulative sum of the sizes of all
preceding attributes (attribute 0 at offset 0, attribute `i` at offset
`sum over j < i of c_j * s_j`), using the vertex type's declared stride
for every attribute. -/
theorem render_vertices_attribute_offsets {α : Type} (V : VertexSpec)
    (uniformLoc attribLoc : Nat → String → Int) (vertex_buffer : Nat × Nat)
    (program : Program) (vertices : List α) :
    vapStrideOffsets
        (render_vertices V uniformLoc attribLoc vertex_buffer program vertices).2.2 =
      (List.range V.attributes.length).map fun i =>
        (V.stride, specAttrOffset V.attributes i) := by
  have h1 := vapStrideOffsets_applyUniforms program.gl_ref
    (uniformLoc program.gl_ref) program.uniforms 0
  have h2 := defineVertexFormat_strideOffsets program.gl_ref
    (attribLoc program.gl_ref) V.stride V.attributes 0
  simp only [vapStrideOffsets] at h1 h2 ⊢
  simp [render_vertices, List.filterMap_cons, List.filterMap_append, vapParam,
    h1, h2]

/-- C2: during `render_vertices` the accumulated uniforms are applied in
list (insertion) order; every 2D-vector uniform is pushed directly and
consumes no texture unit, while every texture uniform is bound to the next
free texture unit, with units assigned in list order starting at 0 and the
unit index written as that uniform's integer value.  The uniform-family
calls of the draw trace are exactly the per-uniform call blocks in list
order, where the unit used at position `i` is the number of texture
uniforms before `i`. -/
theorem render_vertices_uniform_order {α : Type} (V : VertexSpec)
    (uniformLoc attribLoc : Nat → String → Int) (vertex_buffer : Nat × Nat)
    (program : Program) (vertices : List α) :
    uniformCalls
        (render_vertices V uniformLoc attribLoc vertex_buffer program vertices).2.2 =
      (((List.range program.uniforms.length).zip program.uniforms).map fun q =>
        uniformApplicationCalls program.gl_ref (uniformLoc program.gl_ref)
          q.2.1 q.2.2 (textureCountBefore program.uniforms q.1)).flatten := by
  have h1 := filter_applyUniforms program.gl_ref (uniformLoc program.gl_ref)
    program.uniforms 0
  have h2 := filter_defineVertexFormat program.gl_ref (attribLoc program.gl_ref)
    V.stride V.attributes 0
  have h3 := applyUniforms_spec program.gl_ref (uniformLoc program.gl_ref)
    program.uniforms 0
  simp only [Nat.zero_add] at h3
  simp only [uniformCalls, render_vertices]
  simp [List.filter_cons, List.filter_append, isUniformCall, h1, h2]
  rw [h3]

/-- C3: for every vertex source that fails to compile, `create_program`
returns a compile-error result carrying non-empty diagnostic text, and the
fragment-stage source is never compiled or linked in that case (the
vertex-stage failure short-circuits: the stage trace holds only the vertex
compilation). -/
theorem create_program_vertex_compile_error (d : GLDriver) (vs fs : String)
    (h : d.compileStatus GL_VERTEX_SHADER vs = false) :
    (create_program d vs fs).1 =
        Except.error ("Error compiling shader: " ++ d.shaderInfoLog GL_VERTEX_SHADER vs) ∧
      ("Error compiling shader: " ++ d.shaderInfoLog GL_VERTEX_SHADER vs) ≠ "" ∧
      (create_program d vs fs).2 = [StageEvent.compiled GL_VERTEX_SHADER vs] := by
  have hcs : compile_shader d vs GL_VERTEX_SHADER =
      (Except.error ("Error compiling shader: " ++ d.shaderInfoLog GL_VERTEX_SHADER vs),
       [StageEvent.compiled GL_VERTEX_SHADER vs]) := by
    simp [compile_shader, h]
  refine ⟨?_, ?_, ?_⟩
  · simp [create_program, GLVertexShader.new, hcs]
  · intro he
    have hl := congrArg String.length he
    rw [String.length_append] at hl
    have h24 : ("Error compiling shader: ").length = 24 := rfl
    have h0 : ("" : String).length = 0 := rfl
    rw [h24, h0] at hl
    omega
  · simp [create_program, GLVertexShader.new, hcs]

/-- Witness for C3 at a driver that rejects every vertex-stage source. -/
theorem create_program_vertex_compile_error_witness :
    (create_program
        ⟨fun _ _ => false, fun _ _ => "bad", fun _ _ => 1, fun _ _ => true,
         fun _ _ => "", fun _ _ => 9⟩ "vsrc" "fsrc").1 =
        Except.error "Error compiling shader: bad" ∧
      ("Error compiling shader: bad" : String) ≠ "" ∧
      (create_program
        ⟨fun _ _ => false, fun _ _ => "bad", fun _ _ => 1, fun _ _ => true,
         fun _ _ => "", fun _ _ => 9⟩ "vsrc" "fsrc").2 =
        [StageEvent.compiled GL_VERTEX_SHADER "vsrc"] :=
  create_program_vertex_compile_error
    ⟨fun _ _ => false, fun _ _ => "bad", fun _ _ => 1, fun _ _ => true,
     fun _ _ => "", fun _ _ => 9⟩ "vsrc" "fsrc" rfl

/-- C4: whenever `create_program` succeeds (both stages compile and the
program links), the returned `Program` has an empty uniform list. -/
theorem create_program_success_empty_uniforms (d : GLDriver) (vs fs : String)
    (p : Program) (h : (create_program d vs fs).1 = Except.ok p) :
    p.uniforms = [] := by
  simp only [create_program, GLVertexShader.new, GLFragmentShader.new,
    Program.new, link_program, compile_shader] at h
  by_cases h1 : d.compileStatus GL_VERTEX_SHADER vs
  · by_cases h2 : d.compileStatus GL_FRAGMENT_SHADER fs
    · by_cases h3 : d.linkStatus (d.shaderRef GL_VERTEX_SHADER vs)
        (d.shaderRef GL_FRAGMENT_SHADER fs)
      · simp [h1, h2, h3] at h
        subst h
        rfl
      · simp [h1, h2, h3] at h
    · simp [h1, h2] at h
  · simp [h1] at h

/-- Witness for C4 at a driver on which both stages compile and the link
succeeds. -/
theorem create_program_success_empty_uniforms_witness :
    (create_program
        ⟨fun _ _ => true, fun _ _ => "", fun _ _ => 1, fun _ _ => true,
         fun _ _ => "", fun _ _ => 7⟩ "vsrc" "fsrc").1 =
        Except.ok { uniforms := [], gl_ref := 7 } ∧
      ({ uniforms := [], gl_ref := 7 } : Program).uniforms = [] :=
  ⟨rfl,
   create_program_success_empty_uniforms
     ⟨fun _ _ => true, fun _ _ => "", fun _ _ => 1, fun _ _ => true,
      fun _ _ => "", fun _ _ => 7⟩ "vsrc" "fsrc" { uniforms := [], gl_ref := 7 } rfl⟩

/-- C5: for every program state, name and value, `set_uniform` appends
exactly the pair `(name, value)` at the end of the uniform list, leaves
all previously stored pairs unchanged and in their original order, never
deduplicates entries with the same name, and performs no GPU call (the
emitted GL trace is empty). -/
theorem set_uniform_appends (p : Program) (name : String) (u : Uniform) :
    (p.set_uniform name u).1.uniforms = p.uniforms ++ [(name, u)] ∧
      (p.set_uniform name u).1.gl_ref = p.gl_ref ∧
      (p.set_uniform name u).2 = [] :=
  ⟨rfl, rfl, rfl⟩

/-- C6 counterexample: the claim says that after `render_vertices` runs
with a program, the pairs that were in the program's uniform list before
the draw are no longer in it.  At this concrete input the pair set before
the draw is still in the list afterwards: `render_vertices` takes the
program by shared reference and never clears `uniforms`. -/
theorem render_vertices_uniforms_not_cleared :
    ("u", Uniform.Vec2 (1, 2)) ∈
      (render_vertices ⟨8, []⟩ (fun _ _ => 0) (fun _ _ => 0) (1, 2)
        { uniforms := [("u", Uniform.Vec2 (1, 2))], gl_ref := 3 }
        ([] : List Unit)).1.uniforms := by
  simp [render_vertices]

/-- C6 amended: a Program's uniform list holds the pairs set since the
program was created, and `render_vertices` leaves the borrowed program —
its uniform list included — unchanged: pairs present before a draw are
still present after it. -/
theorem render_vertices_preserves_uniforms {α : Type} (V : VertexSpec)
    (uniformLoc attribLoc : Nat → String → Int) (vertex_buffer : Nat × Nat)
    (program : Program) (vertices : List α) :
    (render_vertices V uniformLoc attribLoc vertex_buffer program vertices).1 =
      program :=
  rfl

/-- C7: delivering a host event of a class whose callback slot is
unregistered invokes no callback (the state is returned untouched, nothing
is queued), and delivering an event of a class whose slot holds a
registered closure invokes exactly that closure exactly once with the
event's payload. -/
theorem input_handler_dispatch (σ : Type) (h : InputHandler σ) (s : σ)
    (x y button key : Int) :
    (h.mouse_move = none → mouse_move h s x y = s) ∧
      (∀ f, h.mouse_move = some f → mouse_move h s x y = f s x y) ∧
      (h.mouse_down = none → mouse_down h s button x y = s) ∧
      (∀ f, h.mouse_down = some f → mouse_down h s button x y = f s button x y) ∧
      (h.mouse_up = none → mouse_up h s button x y = s) ∧
      (∀ f, h.mouse_up = some f → mouse_up h s button x y = f s button x y) ∧
      (h.key_down = none → key_down h s key = s) ∧
      (∀ f, h.key_down = some f → key_down h s key = f s key) ∧
      (h.key_up = none → key_up h s key = s) ∧
      (∀ f, h.key_up = some f → key_up h s key = f s key) := by
  refine ⟨?_, ?_, ?_, ?_, ?_, ?_, ?_, ?_, ?_, ?_⟩
  · intro hn; simp [mouse_move, hn]
  · intro f hf; simp [mouse_move, hf]
  · intro hn; simp [mouse_down, hn]
  · intro f hf; simp [mouse_down, hf]
  · intro hn; simp [mouse_up, hn]
  · intro f hf; simp [mouse_up, hf]
  · intro hn; simp [key_down, hn]
  · intro f hf; simp [key_down, hf]
  · intro hn; simp [key_up, hn]
  · intro f hf; simp [key_up, hf]

/-- Witness for C7: with only a key-down callback registered over a logging
state, a mouse-move event leaves the log untouched and a key-down event
appends exactly its key once. -/
theorem input_handler_dispatch_witness :
    mouse_move (InputHandler.new.set_key_down fun (s : List Int) k => k :: s)
        [] 1 2 = [] ∧
      key_down (InputHandler.new.set_key_down fun (s : List Int) k => k :: s)
        [] 9 = [9] :=
  ⟨(input_handler_dispatch (List Int)
      (InputHandler.new.set_key_down fun s k => k :: s) [] 1 2 0 9).1 rfl,
   (input_handler_dispatch (List Int)
      (InputHandler.new.set_key_down fun s k => k :: s) [] 1 2 0 9).2.2.2.2.2.2.2.1
     (fun s k => k :: s) rfl⟩

/-- C8: `clear` sets the clear color to the given components, defaulting to
opaque black `(0, 0, 0, 1)` when no color is given, and clears with the
color-buffer mask only — a mask sharing no bit with the depth or stencil
mask. -/
theorem clear_color_buffer_only :
    clear none = [GLCall.clearColor 0 0 0 1, GLCall.glClear GL_COLOR_BUFFER_BIT] ∧
      (∀ r g b a : Rat, clear (some (r, g, b, a)) =
        [GLCall.clearColor r g b a, GLCall.glClear GL_COLOR_BUFFER_BIT]) ∧
      GL_COLOR_BUFFER_BIT &&& GL_DEPTH_BUFFER_BIT = 0 ∧
      GL_COLOR_BUFFER_BIT &&& GL_STENCIL_BUFFER_BIT = 0 :=
  ⟨rfl, fun _ _ _ _ => rfl, by decide, by decide⟩

/-- C9: `create_texture` always returns a success result (it has no error
path), and when filtering is unspecified the created texture's min and mag
filtering modes are both set to `gl::LINEAR`. -/
theorem create_texture_ok_default_linear (genRef : Nat) (size : Nat × Nat)
    (filtering : Option TextureFiltering) :
    (create_texture genRef size filtering).1 = Except.ok { gl_ref := genRef } ∧
      (create_texture genRef size none).2 =
        [GLCall.genTexture genRef,
         GLCall.bindTexture GL_TEXTURE_2D genRef,
         GLCall.texParameteri GL_TEXTURE_2D GL_TEXTURE_MIN_FILTER GL_LINEAR,
         GLCall.texParameteri GL_TEXTURE_2D GL_TEXTURE_MAG_FILTER GL_LINEAR,
         GLCall.texImage2D GL_TEXTURE_2D 0 GL_RGBA size.1 size.2 0 GL_RGBA
           GL_UNSIGNED_BYTE] :=
  ⟨rfl, rfl⟩

/-- C10: a freshly constructed `InputHandler` has all five callback slots
empty, so every delivered event is dropped until a setter is called; and
each setter replaces only its own slot, leaving the other four slots
unchanged. -/
theorem input_handler_new_and_setters (σ : Type) (h : InputHandler σ) (s : σ)
    (x y button key : Int) (fm : σ → Int → Int → σ)
    (fd fu : σ → Int → Int → Int → σ) (fk fl : σ → Int → σ) :
    ((InputHandler.new : InputHandler σ).mouse_move = none ∧
      (InputHandler.new : InputHandler σ).mouse_down = none ∧
      (InputHandler.new : InputHandler σ).mouse_up = none ∧
      (InputHandler.new : InputHandler σ).key_down = none ∧
      (InputHandler.new : InputHandler σ).key_up = none) ∧
    (mouse_move (InputHandler.new : InputHandler σ) s x y = s ∧
      mouse_down (InputHandler.new : InputHandler σ) s button x y = s ∧
      mouse_up (InputHandler.new : InputHandler σ) s button x y = s ∧
      key_down (InputHandler.new : InputHandler σ) s key = s ∧
      key_up (InputHandler.new : InputHandler σ) s key = s) ∧
    ((h.set_mouse_move fm).mouse_move = some fm ∧
      (h.set_mouse_move fm).mouse_down = h.mouse_down ∧
      (h.set_mouse_move fm).mouse_up = h.mouse_up ∧
      (h.set_mouse_move fm).key_down = h.key_down ∧
      (h.set_mouse_move fm).key_up = h.key_up) ∧
    ((h.set_mouse_down fd).mouse_down = some fd ∧
      (h.set_mouse_down fd).mouse_move = h.mouse_move ∧
      (h.set_mouse_down fd).mouse_up = h.mouse_up ∧
      (h.set_mouse_down fd).key_down = h.key_down ∧
      (h.set_mouse_down fd).key_up = h.key_up) ∧
    ((h.set_mouse_up fu).mouse_up = some fu ∧
      (h.set_mouse_up fu).mouse_move = h.mouse_move ∧
      (h.set_mouse_up fu).mouse_down = h.mouse_down ∧
      (h.set_mouse_up fu).key_down = h.key_down ∧
      (h.set_mouse_up fu).key_up = h.key_up) ∧
    ((h.set_key_down fk).key_down = some fk ∧
      (h.set_key_down fk).mouse_move = h.mouse_move ∧
      (h.set_key_down fk).mouse_down = h.mouse_down ∧
      (h.set_key_down fk).mouse_up = h.mouse_up ∧
      (h.set_key_down fk).key_up = h.key_up) ∧
    ((h.set_key_up fl).key_up = some fl ∧
      (h.set_key_up fl).mouse_move = h.mouse_move ∧
      (h.set_key_up fl).mouse_down = h.mouse_down ∧
      (h.set_key_up fl).mouse_up = h.mouse_up ∧
      (h.set_key_up fl).key_down = h.key_down) :=
  ⟨⟨rfl, rfl, rfl, rfl, rfl⟩, ⟨rfl, rfl, rfl, rfl, rfl⟩,
   ⟨rfl, rfl, rfl, rfl, rfl⟩, ⟨rfl, rfl, rfl, rfl, rfl⟩,
   ⟨rfl, rfl, rfl, rfl, rfl⟩, ⟨rfl, rfl, rfl, rfl, rfl⟩,
   ⟨rfl, rfl, rfl, rfl, rfl⟩⟩
